import Mathlib

/-!
Shallow embedding of the trading-bot core of the Polymarket repository
(`bot/models.py`, `bot/positions/service.py`, `bot/risk/service.py`,
`bot/strategy_engine/service.py`, `bot/persistence/service.py`,
`bot/execution_engine/service.py`).

Python floats are modelled as rationals (`ℚ`), `datetime` values as natural
numbers (an abstract timestamp; every function that calls
`datetime.now(timezone.utc)` takes the current time as an explicit `now`
argument), `Optional[X]` as `Option X`, and in-place mutation of dataclass
objects as pure record updates that return the new value.
-/

namespace Polymarket

/-- The `Side` enum from `bot/models.py`. -/
inductive Side where
  | BUY
  | SELL
deriving DecidableEq

/-- The `StraddleState` enum from `bot/models.py`: the straddle state machine. -/
inductive StraddleState where
  | WAITING_ENTRY
  | ENTERED
  | EXITED
  | RESOLVED
deriving DecidableEq

/-- A value stored in a Python metadata dict (`Dict[str, str]` by annotation,
but the code also stores floats, e.g. the exit threshold). -/
inductive MetaVal where
  | str (s : String)
  | num (q : ℚ)
deriving DecidableEq

/-- The `OrderIntent` dataclass from `bot/models.py`. -/
structure OrderIntent where
  market_id : String
  side : Side
  price : ℚ
  size : ℚ
  ttl_seconds : ℕ
  client_order_id : String
  metadata : List (String × MetaVal)
deriving DecidableEq

/-- The `LiveOrder` dataclass from `bot/models.py`. -/
structure LiveOrder where
  order_hash : String
  intent : OrderIntent
  created_at : ℕ
  status : String
deriving DecidableEq

/-- The `FillEvent` dataclass from `bot/models.py`. -/
structure FillEvent where
  market_id : String
  order_hash : String
  side : Side
  price : ℚ
  size : ℚ
  filled_at : ℕ
deriving DecidableEq

/-- The `OrderBookLevel` dataclass from `bot/models.py`. -/
structure OrderBookLevel where
  price : ℚ
  size : ℚ
deriving DecidableEq

/-- The `OrderBookSnapshot` dataclass from `bot/models.py`. -/
structure OrderBookSnapshot where
  market_id : String
  bids : List OrderBookLevel
  asks : List OrderBookLevel
  best_bid : Option ℚ
  best_ask : Option ℚ
  last_trade_price : Option ℚ
  last_trade_time : Option ℕ
  liquidity_score : Option ℚ
  received_at : ℕ
deriving DecidableEq

/-- The `StraddlePosition` dataclass from `bot/models.py`. -/
structure StraddlePosition where
  market_id : String
  yes_entry_price : ℚ
  no_entry_price : ℚ
  yes_size : ℚ
  no_size : ℚ
  cheap_side : String
  favorite_side : String
  state : StraddleState
  entry_time : ℕ
  last_update_time : ℕ
  exit_price : Option ℚ := none
  exit_time : Option ℕ := none
  realized_pnl : ℚ := 0
  unrealized_pnl : ℚ := 0
deriving DecidableEq

/-- The `RiskSettings` dataclass from `bot/config.py`. -/
structure RiskSettings where
  max_exposure_per_market : ℚ
  max_total_exposure : ℚ
  max_open_markets : ℕ
  max_order_ttl_seconds : ℕ
  min_spread_cents : ℚ
deriving DecidableEq

/-- The `ValorantStraddleConfig` dataclass from `bot/config.py`
(the `valorant_tags` list is irrelevant to the core logic but kept). -/
structure ValorantStraddleConfig where
  entry_price_tolerance : ℚ := 5/100
  exit_threshold : ℚ := 18/100
  min_market_age_seconds : ℕ := 300
  position_size_pct : ℚ := 3/100
  max_concurrent_positions : ℕ := 5
  valorant_tags : List String := ["valorant", "esports"]
deriving DecidableEq

/-- Python substring test `needle in hay` on lists of characters:
true iff `needle` occurs contiguously in the remaining hay. -/
def strContainsAux (needle : List Char) : List Char → Bool
  | [] => needle.isEmpty
  | c :: rest => needle.isPrefixOf (c :: rest) || strContainsAux needle rest

/-- Python `needle in hay` for strings. -/
def strContains (hay needle : String) : Bool :=
  strContainsAux needle.data hay.data

/-- Python `str.lower()`, mapping `Char.toLower` over the characters (all
strings involved are ASCII). -/
def strLower (s : String) : String :=
  ⟨s.data.map Char.toLower⟩

/-- Python `str.upper()`, mapping `Char.toUpper` over the characters. -/
def strUpper (s : String) : String :=
  ⟨s.data.map Char.toUpper⟩

/-! ## Position Tracker (`bot/positions/service.py`, class `PositionTracker`) -/

/-- The `PositionTracker.create_position`: build a new straddle position from the
two filled entry orders.  Cheap side is the strictly cheaper leg; on a tie
(`yes_price < no_price` false) the `else` branch makes NO the cheap side. -/
def create_position (market_id : String) (yes_order no_order : LiveOrder)
    (now : ℕ) : StraddlePosition :=
  let yes_price := yes_order.intent.price
  let no_price := no_order.intent.price
  let sides := if yes_price < no_price then ("YES", "NO") else ("NO", "YES")
  { market_id := market_id
    yes_entry_price := yes_price
    no_entry_price := no_price
    yes_size := yes_order.intent.size
    no_size := no_order.intent.size
    cheap_side := sides.1
    favorite_side := sides.2
    state := StraddleState.ENTERED
    entry_time := now
    last_update_time := now }

/-- The guard of the exit branch of `PositionTracker.update_position_from_fill`:
the fill is a SELL and its lowercased `market_id` names the cheap side. -/
def exit_fill_matches (position : StraddlePosition) (fill : FillEvent) : Prop :=
  fill.side = Side.SELL ∧
    ((position.cheap_side = "YES" ∧ strContains (strLower fill.market_id) "yes") ∨
     (position.cheap_side = "NO" ∧ strContains (strLower fill.market_id) "no"))

instance (position : StraddlePosition) (fill : FillEvent) :
    Decidable (exit_fill_matches position fill) := by
  unfold exit_fill_matches; infer_instance

/-- The `PositionTracker.update_position_from_fill`: unconditionally refresh
`last_update_time`; if the position is `ENTERED` and the fill is a SELL of the
cheap side, record the exit and set `realized_pnl` to
`(cheap entry price − fill price) × fill size`. -/
def update_position_from_fill (position : StraddlePosition) (fill : FillEvent)
    (now : ℕ) : StraddlePosition :=
  let position := { position with last_update_time := now }
  if position.state = StraddleState.ENTERED then
    if exit_fill_matches position fill then
      let realized_loss :=
        if position.cheap_side = "YES" then
          (position.yes_entry_price - fill.price) * fill.size
        else
          (position.no_entry_price - fill.price) * fill.size
      { position with
          exit_price := some fill.price
          exit_time := some fill.filled_at
          state := StraddleState.EXITED
          realized_pnl := realized_loss }
    else position
  else position

/-- The `PositionTracker.resolve_position`: set the state to `RESOLVED`, refresh
`last_update_time`, and when the favorite side won add the favorite leg's
payout minus its cost to `realized_pnl`. -/
def resolve_position (position : StraddlePosition) (final_outcome : String)
    (now : ℕ) : StraddlePosition :=
  let position :=
    { position with state := StraddleState.RESOLVED, last_update_time := now }
  if position.favorite_side = final_outcome then
    let payout_cost :=
      if position.favorite_side = "YES" then
        (position.yes_size * 1, position.yes_entry_price * position.yes_size)
      else
        (position.no_size * 1, position.no_entry_price * position.no_size)
    let favorite_gain := payout_cost.1 - payout_cost.2
    { position with realized_pnl := position.realized_pnl + favorite_gain }
  else position

/-- The `PositionTracker.calculate_unrealized_pnl`: returns the computed value and
the (possibly mutated) position.  For a position not in `ENTERED` it returns
`position.realized_pnl`; with a missing price it returns `0.0`; otherwise it
marks both legs to market and stores the result in `unrealized_pnl`. -/
def calculate_unrealized_pnl (position : StraddlePosition)
    (current_yes_price current_no_price : Option ℚ) : ℚ × StraddlePosition :=
  if position.state ≠ StraddleState.ENTERED then
    (position.realized_pnl, position)
  else
    match current_yes_price, current_no_price with
    | some yp, some np =>
        let yes_value := yp * position.yes_size
        let no_value := np * position.no_size
        let yes_cost := position.yes_entry_price * position.yes_size
        let no_cost := position.no_entry_price * position.no_size
        let unrealized := (yes_value + no_value) - (yes_cost + no_cost)
        (unrealized, { position with unrealized_pnl := unrealized })
    | _, _ => (0, position)

/-! ## Risk Manager (`bot/risk/service.py`, class `SimpleRiskManager`) -/

/-- The mutable state of a `SimpleRiskManager` instance together with its
configuration. -/
structure SimpleRiskManager where
  settings : RiskSettings
  strategy_config : ValorantStraddleConfig
  bankroll : ℚ := 1000
  active_positions : List StraddlePosition := []
  total_exposure : ℚ := 0
  initial_bankroll : ℚ := 1000
deriving DecidableEq

/-- The `SimpleRiskManager.can_enter_new_position`: reject when the number of
active positions has reached `max_concurrent_positions`, when the new total
exposure would exceed `bankroll × (max_concurrent_positions ×
position_size_pct)`, or when it would exceed `settings.max_total_exposure`. -/
def can_enter_new_position (rm : SimpleRiskManager) (proposed_size : ℚ) : Bool :=
  if rm.active_positions.length ≥ rm.strategy_config.max_concurrent_positions then
    false
  else
    let new_exposure := rm.total_exposure + proposed_size
    let max_exposure := rm.bankroll *
      ((rm.strategy_config.max_concurrent_positions : ℚ) *
        rm.strategy_config.position_size_pct)
    if new_exposure > max_exposure then false
    else if new_exposure > rm.settings.max_total_exposure then false
    else true

/-- The `SimpleRiskManager.register_straddle_position`: append the position and add
its entry cost (both legs) to the running exposure. -/
def register_straddle_position (rm : SimpleRiskManager)
    (position : StraddlePosition) : SimpleRiskManager :=
  let exposure := position.yes_entry_price * position.yes_size +
    position.no_entry_price * position.no_size
  { rm with
      active_positions := rm.active_positions ++ [position]
      total_exposure := rm.total_exposure + exposure }

/-- The `SimpleRiskManager.calculate_position_size`: store the bankroll and return
`min(bankroll × position_size_pct, max_exposure_per_market)`. -/
def calculate_position_size (rm : SimpleRiskManager) (bankroll : ℚ) :
    ℚ × SimpleRiskManager :=
  let rm := { rm with bankroll := bankroll }
  let max_size := bankroll * rm.strategy_config.position_size_pct
  (min max_size rm.settings.max_exposure_per_market, rm)

/-! ## Strategy Engine (`bot/strategy_engine/service.py`,
class `ValorantStraddleStrategy`) -/

/-- The configuration carried by a `ValorantStraddleStrategy` instance
(the pieces of `Settings` the strategy reads, plus the strategy config). -/
structure ValorantStraddleStrategy where
  risk : RiskSettings
  strategy_config : ValorantStraddleConfig
  bankroll : ℚ := 1000
deriving DecidableEq

/-- The `ValorantStraddleStrategy.check_exits`: for a position in `ENTERED` with an
available best ask at or below `exit_threshold`, emit one SELL intent for the
whole cheap leg; otherwise emit nothing.  The Python `book` argument may be a
falsy/`None` value, modelled by `Option`; `fresh` stands for the random UUID
suffix of the client order id. -/
def check_exits (strat : ValorantStraddleStrategy) (position : StraddlePosition)
    (book : Option OrderBookSnapshot) (fresh : String) : List OrderIntent :=
  if position.state ≠ StraddleState.ENTERED then []
  else
    match book with
    | none => []
    | some book =>
      match book.best_ask with
      | none => []
      | some cheap_price =>
        let threshold := strat.strategy_config.exit_threshold
        if cheap_price ≤ threshold then
          [{ market_id := position.market_id
             side := Side.SELL
             price := cheap_price
             size := if position.cheap_side = "YES" then position.yes_size
               else position.no_size
             ttl_seconds := strat.risk.max_order_ttl_seconds
             client_order_id := "exit-" ++ position.market_id ++ "-" ++ fresh
             metadata := [("strategy", MetaVal.str "valorant_straddle"),
               ("type", MetaVal.str "exit"),
               ("threshold", MetaVal.num threshold),
               ("cheap_side", MetaVal.str position.cheap_side)] }]
        else []

/-! ## Persistence (`bot/persistence/service.py`, class `InMemoryPersistence`).
The Python `straddle_positions` dict is modelled as an association list with
unique keys; `dictInsert` is Python dict assignment `d[k] = v` (replace the
existing binding in place, else append). -/

/-- Python dict assignment on an association list. -/
def dictInsert (k : String) (v : StraddlePosition)
    (d : List (String × StraddlePosition)) : List (String × StraddlePosition) :=
  match d with
  | [] => [(k, v)]
  | (k0, v0) :: rest =>
      if k0 = k then (k0, v) :: rest else (k0, v0) :: dictInsert k v rest

/-- The `straddle_positions` store of an `InMemoryPersistence` instance. -/
structure InMemoryPersistence where
  straddle_positions : List (String × StraddlePosition) := []
deriving DecidableEq

/-- Well-formedness of the store, guaranteed by construction in Python: the
dict key equals the stored position's `market_id`, and keys are unique. -/
def StoreWF (p : InMemoryPersistence) : Prop :=
  (∀ e ∈ p.straddle_positions, e.1 = e.2.market_id) ∧
    (p.straddle_positions.map Prod.fst).Nodup

/-- The `InMemoryPersistence.save_straddle_position`:
`self.straddle_positions[position.market_id] = position`. -/
def save_straddle_position (p : InMemoryPersistence)
    (position : StraddlePosition) : InMemoryPersistence :=
  { p with straddle_positions :=
      dictInsert position.market_id position p.straddle_positions }

/-- The `InMemoryPersistence.load_straddle_positions`: every stored position whose
state is not `RESOLVED`. -/
def load_straddle_positions (p : InMemoryPersistence) : List StraddlePosition :=
  (p.straddle_positions.map Prod.snd).filter
    (fun pos => pos.state ≠ StraddleState.RESOLVED)

/-! ## Execution Engine (`bot/execution_engine/service.py`,
class `RestExecutionEngine`).

`submit_order` takes a payload dict and performs up to `max_retries = 3`
HTTP POSTs.  The network is modelled by a function `net : ℕ → Option (Option
OrderData)`: `net attempt = none` means attempt `attempt` raised a
`RequestException` (transport error, after the session's own low-level
retries); `net attempt = some od` means the POST succeeded and
`response.json()` parsed to `od`, where `od = none` models a JSON `null`
body.  A raised `RuntimeError` is modelled as `Except.error`. -/

/-- The fields of the venue's JSON order response that the code reads
(each may be absent from the dict). -/
structure OrderData where
  hash : Option String
  id : Option String
  status : Option String
deriving DecidableEq

/-- The submitted payload dict: each key may be absent (`payload.get`
supplies a default). -/
structure OrderPayload where
  market : Option String
  side : Option String
  price : Option ℚ
  size : Option ℚ
  expiration : Option ℕ
  clientOrderId : Option String
  metadata : Option (List (String × MetaVal))
deriving DecidableEq

/-- The `OrderIntent` the execution engine reconstructs from a payload.  Its
`side` field is the raw uppercased payload string (the Python code passes a
`str` where the dataclass annotation says `Side`), so it is modelled as a
separate structure with `side : String`. -/
structure ExecOrderIntent where
  market_id : String
  side : String
  price : ℚ
  size : ℚ
  ttl_seconds : ℕ
  client_order_id : String
  metadata : List (String × MetaVal)
deriving DecidableEq

/-- A `LiveOrder` whose intent is an `ExecOrderIntent`. -/
structure ExecLiveOrder where
  order_hash : String
  intent : ExecOrderIntent
  created_at : ℕ
  status : String
deriving DecidableEq

/-- Reconstruction of the intent from the payload, as done in both the
failure and the success branch of `submit_order`. -/
def intent_from_payload (payload : OrderPayload) : ExecOrderIntent :=
  { market_id := payload.market.getD ""
    side := strUpper (payload.side.getD "")
    price := payload.price.getD 0
    size := payload.size.getD 0
    ttl_seconds := payload.expiration.getD 120
    client_order_id := payload.clientOrderId.getD ""
    metadata := payload.metadata.getD [] }

/-- Python `a or b` on an optional string (`None` and `""` are falsy). -/
def firstTruthy (a : Option String) (b : String) : String :=
  match a with
  | none => b
  | some s => if s = "" then b else s

/-- The retry loop of `submit_order` over the listed attempt numbers:
`Except.error ()` models the early `return` of the failed order from the last
attempt; `Except.ok od` models leaving the loop with `order_data = od`
(`Except.ok none` is the loop ending with `order_data` still `None`). -/
def runAttempts (net : ℕ → Option (Option OrderData)) :
    List ℕ → Except Unit (Option (Option OrderData))
  | [] => Except.ok none
  | a :: rest =>
    match net a with
    | some od => Except.ok (some od)
    | none => if rest.isEmpty then Except.error () else runAttempts net rest

/-- The `RestExecutionEngine.submit_order`.  `Except.error` is the
`raise RuntimeError("Failed to submit order")` branch, reached only when the
loop ends with `order_data` equal to `None`. -/
def submit_order (net : ℕ → Option (Option OrderData)) (payload : OrderPayload)
    (now : ℕ) : Except String ExecLiveOrder :=
  match runAttempts net (List.range 3) with
  | Except.error () =>
      Except.ok { order_hash := ""
                  intent := intent_from_payload payload
                  created_at := now
                  status := "failed" }
  | Except.ok none => Except.error "Failed to submit order"
  | Except.ok (some none) => Except.error "Failed to submit order"
  | Except.ok (some (some od)) =>
      Except.ok { order_hash := firstTruthy od.hash (od.id.getD "")
                  intent := intent_from_payload payload
                  created_at := now
                  status := od.status.getD "pending" }

/-! ## Derived quantities used by the statements -/

/-- The size of the favorite leg, as selected by the branch in
`resolve_position` (`favorite_side == "YES"` picks the YES leg, anything else
the NO leg). -/
def favorite_size (position : StraddlePosition) : ℚ :=
  if position.favorite_side = "YES" then position.yes_size else position.no_size

/-- The entry price of the favorite leg, selected the same way. -/
def favorite_entry_price (position : StraddlePosition) : ℚ :=
  if position.favorite_side = "YES" then position.yes_entry_price
  else position.no_entry_price

/-! ## Helper lemmas about `resolve_position` -/

theorem resolve_position_state (position : StraddlePosition) (outcome : String)
    (now : ℕ) :
    (resolve_position position outcome now).state = StraddleState.RESOLVED := by
  unfold resolve_position
  dsimp only
  split <;> rfl

theorem resolve_position_favorite_side (position : StraddlePosition)
    (outcome : String) (now : ℕ) :
    (resolve_position position outcome now).favorite_side =
      position.favorite_side := by
  unfold resolve_position
  dsimp only
  split <;> rfl

theorem resolve_position_sizes (position : StraddlePosition) (outcome : String)
    (now : ℕ) :
    (resolve_position position outcome now).yes_size = position.yes_size ∧
    (resolve_position position outcome now).no_size = position.no_size ∧
    (resolve_position position outcome now).yes_entry_price =
      position.yes_entry_price ∧
    (resolve_position position outcome now).no_entry_price =
      position.no_entry_price := by
  unfold resolve_position
  dsimp only
  split <;> exact ⟨rfl, rfl, rfl, rfl⟩

theorem favorite_size_resolve (position : StraddlePosition) (outcome : String)
    (now : ℕ) :
    favorite_size (resolve_position position outcome now) =
      favorite_size position := by
  unfold favorite_size
  rw [resolve_position_favorite_side, (resolve_position_sizes _ _ _).1,
    (resolve_position_sizes _ _ _).2.1]

theorem favorite_entry_price_resolve (position : StraddlePosition)
    (outcome : String) (now : ℕ) :
    favorite_entry_price (resolve_position position outcome now) =
      favorite_entry_price position := by
  unfold favorite_entry_price
  rw [resolve_position_favorite_side, (resolve_position_sizes _ _ _).2.2.1,
    (resolve_position_sizes _ _ _).2.2.2]

theorem resolve_position_realized_pnl (position : StraddlePosition)
    (outcome : String) (now : ℕ) :
    (resolve_position position outcome now).realized_pnl =
      if position.favorite_side = outcome then
        position.realized_pnl +
          favorite_size position * (1 - favorite_entry_price position)
      else position.realized_pnl := by
  unfold resolve_position favorite_size favorite_entry_price
  dsimp only
  by_cases h : position.favorite_side = outcome
  · rw [if_pos h, if_pos h]
    by_cases hy : position.favorite_side = "YES"
    · rw [if_pos hy, if_pos hy, if_pos hy]
      dsimp only
      ring
    · rw [if_neg hy, if_neg hy, if_neg hy]
      dsimp only
      ring
  · rw [if_neg h, if_neg h]

/-! ## Concrete fixtures used by witnesses and counterexamples -/

/-- Default strategy configuration (`ValorantStraddleConfig()`;
exit threshold `0.18`, position size `3%`, up to `5` concurrent positions). -/
def sampleConfig : ValorantStraddleConfig := {}

/-- Default risk settings from `bot/config.py` (`Settings.risk`). -/
def sampleRiskSettings : RiskSettings :=
  { max_exposure_per_market := 100
    max_total_exposure := 1000
    max_open_markets := 20
    max_order_ttl_seconds := 120
    min_spread_cents := 3 }

/-- A strategy instance with the default configuration. -/
def sampleStrategy : ValorantStraddleStrategy :=
  { risk := sampleRiskSettings, strategy_config := sampleConfig }

/-- An `ENTERED` straddle position entered at 0.50/0.50 with 60 shares a leg
(cheap side NO by the tie-break). -/
def posEntered : StraddlePosition :=
  { market_id := "m1"
    yes_entry_price := 1/2
    no_entry_price := 1/2
    yes_size := 60
    no_size := 60
    cheap_side := "NO"
    favorite_side := "YES"
    state := StraddleState.ENTERED
    entry_time := 0
    last_update_time := 0 }

/-- An order-book snapshot with the given best ask. -/
def sampleBook (ask : Option ℚ) : OrderBookSnapshot :=
  { market_id := "m1"
    bids := []
    asks := []
    best_bid := none
    best_ask := ask
    last_trade_price := none
    last_trade_time := none
    liquidity_score := none
    received_at := 0 }

/-! ## Claim C5 -/

/-- C5: `resolve_position` always results in state `RESOLVED`; when the final
outcome equals `favorite_side` it increases `realized_pnl` by exactly
`favorite_size × (1 − favorite_entry_price)`, and otherwise it leaves
`realized_pnl` at its pre-resolution value. -/
theorem resolve_position_spec (position : StraddlePosition) (outcome : String)
    (now : ℕ) :
    (resolve_position position outcome now).state = StraddleState.RESOLVED ∧
    (position.favorite_side = outcome →
      (resolve_position position outcome now).realized_pnl =
        position.realized_pnl +
          favorite_size position * (1 - favorite_entry_price position)) ∧
    (position.favorite_side ≠ outcome →
      (resolve_position position outcome now).realized_pnl =
        position.realized_pnl) := by
  refine ⟨resolve_position_state position outcome now, fun h => ?_, fun h => ?_⟩
  · rw [resolve_position_realized_pnl, if_pos h]
  · rw [resolve_position_realized_pnl, if_neg h]

/-- C5 witness: resolving the 0.50/0.50 position with the favorite outcome
"YES" adds `60 × (1 − 0.5) = 30` to the realized P/L. -/
theorem resolve_position_spec_witness :
    posEntered.favorite_side = "YES" ∧
    (resolve_position posEntered "YES" 1).realized_pnl =
      posEntered.realized_pnl +
        favorite_size posEntered * (1 - favorite_entry_price posEntered) :=
  ⟨rfl, (resolve_position_spec posEntered "YES" 1).2.1 rfl⟩

/-! ## Claim C9 -/

/-- C9: `resolve_position` has no state guard and is not idempotent: it sets
the state to `RESOLVED` from any starting state (including `RESOLVED`), and
two successive calls with an outcome matching `favorite_side` add the favorite
gain `favorite_size × (1 − favorite_entry_price)` twice. -/
theorem resolve_position_not_idempotent (position : StraddlePosition)
    (outcome : String) (now1 now2 : ℕ) :
    (resolve_position position outcome now1).state = StraddleState.RESOLVED ∧
    (position.favorite_side = outcome →
      (resolve_position (resolve_position position outcome now1) outcome
          now2).realized_pnl =
        position.realized_pnl +
          2 * (favorite_size position * (1 - favorite_entry_price position))) := by
  refine ⟨resolve_position_state position outcome now1, fun h => ?_⟩
  rw [resolve_position_realized_pnl, resolve_position_favorite_side,
    if_pos h, favorite_size_resolve, favorite_entry_price_resolve,
    resolve_position_realized_pnl, if_pos h]
  ring

/-- C9 witness: resolving the already-resolved 0.50/0.50 position twice with
outcome "YES" accumulates the `30` gain twice. -/
theorem resolve_position_not_idempotent_witness :
    posEntered.favorite_side = "YES" ∧
    (resolve_position (resolve_position posEntered "YES" 1) "YES"
        2).realized_pnl =
      posEntered.realized_pnl +
        2 * (favorite_size posEntered * (1 - favorite_entry_price posEntered)) :=
  ⟨rfl, (resolve_position_not_idempotent posEntered "YES" 1 2).2 rfl⟩

/-! ## Claim C1 -/

/-- C1: for an `ENTERED` position and a snapshot supplying a cheap-side price
`p`, `check_exits` returns exactly one intent — a SELL sized to the full cheap
leg (`yes_size` when `cheap_side` is YES, `no_size` when it is NO) — iff
`p ≤ exit_threshold`, and returns `[]` above the threshold; for a position in
any other state, or when no price is available, it returns `[]`. -/
theorem check_exits_spec (strat : ValorantStraddleStrategy)
    (position : StraddlePosition) (book : OrderBookSnapshot) (fresh : String)
    (p : ℚ) :
    (position.state = StraddleState.ENTERED → book.best_ask = some p →
      ((p ≤ strat.strategy_config.exit_threshold ↔
        ((check_exits strat position (some book) fresh).length = 1 ∧
          ∀ intent ∈ check_exits strat position (some book) fresh,
            intent.side = Side.SELL ∧
            (position.cheap_side = "YES" → intent.size = position.yes_size) ∧
            (position.cheap_side = "NO" → intent.size = position.no_size))) ∧
       (¬ p ≤ strat.strategy_config.exit_threshold →
          check_exits strat position (some book) fresh = []))) ∧
    (position.state ≠ StraddleState.ENTERED →
      check_exits strat position (some book) fresh = []) ∧
    (book.best_ask = none → check_exits strat position (some book) fresh = []) ∧
    check_exits strat position none fresh = [] := by
  refine ⟨fun hstate hask => ⟨⟨fun hle => ?_, fun hone => ?_⟩, fun hgt => ?_⟩,
    fun hstate => ?_, fun hask => ?_, ?_⟩
  · constructor
    · simp [check_exits, hstate, hask, hle]
    · intro intent hmem
      simp [check_exits, hstate, hask, hle] at hmem
      subst hmem
      refine ⟨rfl, fun hy => ?_, fun hn => ?_⟩
      · simp [hy]
      · by_cases hy : position.cheap_side = "YES"
        · rw [hy] at hn; exact absurd hn (by decide)
        · simp [hy]
  · by_contra hgt
    simp [check_exits, hstate, hask, hgt] at hone
  · simp [check_exits, hstate, hask, hgt]
  · simp [check_exits, hstate]
  · simp [check_exits, hask]
  · simp [check_exits]

/-- C1 witness: for the 0.50/0.50 entered position with best ask `0.15 ≤ 0.18`
the strategy emits exactly one intent, and it sells the full NO leg. -/
theorem check_exits_spec_witness :
    posEntered.state = StraddleState.ENTERED ∧
    (sampleBook (some (15/100))).best_ask = some (15/100) ∧
    (15/100 : ℚ) ≤ sampleStrategy.strategy_config.exit_threshold ∧
    ((check_exits sampleStrategy posEntered (some (sampleBook (some (15/100))))
        "u").length = 1 ∧
      ∀ intent ∈ check_exits sampleStrategy posEntered
          (some (sampleBook (some (15/100)))) "u",
        intent.side = Side.SELL ∧
        (posEntered.cheap_side = "YES" → intent.size = posEntered.yes_size) ∧
        (posEntered.cheap_side = "NO" → intent.size = posEntered.no_size)) :=
  ⟨rfl, rfl, by norm_num [sampleStrategy, sampleConfig],
    ((check_exits_spec sampleStrategy posEntered (sampleBook (some (15/100)))
        "u" (15/100)).1 rfl rfl).1.mp
      (by norm_num [sampleStrategy, sampleConfig])⟩

/-! ## Claim C2 -/

/-- A risk manager with 2 allowed concurrent positions, a 3% sizing
percentage on a 1000 bankroll (soft cap `60`), and an absolute
`max_total_exposure` of `100`, currently holding nothing. -/
def rmC2 : SimpleRiskManager :=
  { settings :=
      { max_exposure_per_market := 100
        max_total_exposure := 100
        max_open_markets := 20
        max_order_ttl_seconds := 120
        min_spread_cents := 3 }
    strategy_config := { sampleConfig with max_concurrent_positions := 2 }
    bankroll := 1000
    active_positions := []
    total_exposure := 0
    initial_bankroll := 1000 }

/-- C2 counterexample: with no active positions and a proposed size of 70, the
new exposure (70) exceeds the sizing cap `1000 × 2 × 0.03 = 60` but not the
absolute cap `100`, yet `can_enter_new_position` still returns `false` — so
"false iff the count is full or the exposure exceeds BOTH caps" fails here. -/
theorem can_enter_new_position_both_caps_cex :
    can_enter_new_position rmC2 70 = false ∧
    ¬ (rmC2.active_positions.length ≥
          rmC2.strategy_config.max_concurrent_positions ∨
        (rmC2.total_exposure + 70 >
            rmC2.bankroll * ((rmC2.strategy_config.max_concurrent_positions : ℚ) *
              rmC2.strategy_config.position_size_pct) ∧
          rmC2.total_exposure + 70 > rmC2.settings.max_total_exposure)) := by
  constructor
  · norm_num [can_enter_new_position, rmC2, sampleConfig]
  · norm_num [rmC2, sampleConfig]

/-- C2 amended: `can_enter_new_position` returns `false` iff the active
position count is at least `max_concurrent_positions`, or the new total
exposure exceeds `bankroll × max_concurrent_positions × position_size_pct`,
or it exceeds the absolute `max_total_exposure` (either cap suffices, not
both); in particular a full position count forces `false`. -/
theorem can_enter_new_position_spec (rm : SimpleRiskManager)
    (proposed_size : ℚ) :
    (can_enter_new_position rm proposed_size = false ↔
      (rm.active_positions.length ≥
          rm.strategy_config.max_concurrent_positions ∨
        rm.total_exposure + proposed_size >
          rm.bankroll * ((rm.strategy_config.max_concurrent_positions : ℚ) *
            rm.strategy_config.position_size_pct) ∨
        rm.total_exposure + proposed_size >
          rm.settings.max_total_exposure)) ∧
    (rm.active_positions.length ≥ rm.strategy_config.max_concurrent_positions →
      can_enter_new_position rm proposed_size = false) := by
  unfold can_enter_new_position
  dsimp only
  split_ifs with h1 h2 h3 <;> simp_all

/-- C2 amended witness: the `rmC2` instance with proposed size 70 is rejected
by the sizing cap alone. -/
theorem can_enter_new_position_spec_witness :
    can_enter_new_position rmC2 70 = false :=
  (can_enter_new_position_spec rmC2 70).1.mpr (Or.inr (Or.inl (by norm_num [rmC2, sampleConfig])))

/-! ## Claim C3 -/

/-- A filled YES entry order at 0.50 for 60 shares. -/
def yesOrderTie : LiveOrder :=
  { order_hash := "yes-hash"
    intent :=
      { market_id := "m1-YES", side := Side.BUY, price := 1/2, size := 60,
        ttl_seconds := 120, client_order_id := "cy", metadata := [] }
    created_at := 0
    status := "filled" }

/-- A filled NO entry order at 0.50 for 60 shares. -/
def noOrderTie : LiveOrder :=
  { order_hash := "no-hash"
    intent :=
      { market_id := "m1-NO", side := Side.BUY, price := 1/2, size := 60,
        ttl_seconds := 120, client_order_id := "cn", metadata := [] }
    created_at := 0
    status := "filled" }

/-- A SELL fill of the NO leg at 0.18 for 60 shares. -/
def fillSellNo : FillEvent :=
  { market_id := "m1-NO", order_hash := "h", side := Side.SELL,
    price := 18/100, size := 60, filled_at := 5 }

/-- C3 evaluation at the spec's scenario: entry legs both at 0.50 tie-break to
`cheap_side = "NO"`, but the SELL exit fill at 0.18 for 60 shares leaves
`realized_pnl = +19.2` (the loss magnitude, `96/5`), not the `−19.2` the
claim requires. -/
theorem tie_break_loss_sign_eval :
    (create_position "m1" yesOrderTie noOrderTie 0).cheap_side = "NO" ∧
    (update_position_from_fill (create_position "m1" yesOrderTie noOrderTie 0)
        fillSellNo 5).realized_pnl = 96/5 ∧
    ¬ (update_position_from_fill (create_position "m1" yesOrderTie noOrderTie 0)
        fillSellNo 5).realized_pnl = -(96/5) := by
  have hpos : create_position "m1" yesOrderTie noOrderTie 0 = posEntered := by
    norm_num [create_position, yesOrderTie, noOrderTie, posEntered]
  rw [hpos]
  have hval : (update_position_from_fill posEntered fillSellNo 5).realized_pnl
      = 96/5 := by
    simp +decide [update_position_from_fill, posEntered, fillSellNo,
      exit_fill_matches]
    norm_num
  exact ⟨rfl, hval, by rw [hval]; norm_num⟩

/-! ## Claim C4 -/

/-- The position after the losing NO-leg exit: `EXITED` with a recorded
`realized_pnl` of `96/5`. -/
def posExited : StraddlePosition :=
  { posEntered with
      state := StraddleState.EXITED
      exit_price := some (18/100)
      exit_time := some 5
      realized_pnl := 96/5
      last_update_time := 5 }

/-- C4 counterexample: for this `EXITED` position, `calculate_unrealized_pnl`
returns the stored `realized_pnl = 96/5`, not `0`, refuting "returns 0 for any
position whose state is not ENTERED". -/
theorem calculate_unrealized_pnl_zero_cex :
    posExited.state ≠ StraddleState.ENTERED ∧
    ¬ (calculate_unrealized_pnl posExited (some (1/2)) (some (1/2))).1 = 0 := by
  constructor
  · decide
  · simp +decide [calculate_unrealized_pnl, posExited, posEntered]

/-- C4 amended: for a position whose state is not `ENTERED`,
`calculate_unrealized_pnl` returns the stored `realized_pnl` (not always 0);
for an `ENTERED` position with both current prices supplied it returns
`(current_yes_price × yes_size + current_no_price × no_size) −
(yes_entry_price × yes_size + no_entry_price × no_size)`. -/
theorem calculate_unrealized_pnl_spec (position : StraddlePosition)
    (cy cn : Option ℚ) :
    (position.state ≠ StraddleState.ENTERED →
      (calculate_unrealized_pnl position cy cn).1 = position.realized_pnl) ∧
    (∀ yp np, position.state = StraddleState.ENTERED → cy = some yp →
      cn = some np →
      (calculate_unrealized_pnl position cy cn).1 =
        (yp * position.yes_size + np * position.no_size) -
          (position.yes_entry_price * position.yes_size +
            position.no_entry_price * position.no_size)) := by
  constructor
  · intro h
    simp [calculate_unrealized_pnl, h]
  · intro yp np hs hy hn
    subst hy hn
    simp [calculate_unrealized_pnl, hs]

/-- C4 amended witness: marking the entered 0.50/0.50 position to market at
YES = 0.30, NO = 0.70. -/
theorem calculate_unrealized_pnl_spec_witness :
    (calculate_unrealized_pnl posEntered (some (3/10)) (some (7/10))).1 =
      ((3/10) * posEntered.yes_size + (7/10) * posEntered.no_size) -
        (posEntered.yes_entry_price * posEntered.yes_size +
          posEntered.no_entry_price * posEntered.no_size) :=
  (calculate_unrealized_pnl_spec posEntered (some (3/10)) (some (7/10))).2
    (3/10) (7/10) rfl rfl rfl

/-! ## Claim C6 -/

/-- C6 counterexample: a second SELL fill on the already-`EXITED` position is
not a full no-op — `last_update_time` is refreshed unconditionally, so the
resulting position differs from the input. -/
theorem update_position_from_fill_noop_cex :
    ¬ update_position_from_fill posExited fillSellNo 7 = posExited := by
  intro h
  have h2 := congrArg StraddlePosition.last_update_time h
  simp +decide [update_position_from_fill, posExited, posEntered] at h2

/-- C6 amended: whenever the position is not in `ENTERED` or the fill does not
match the cheap leg, `update_position_from_fill` changes nothing except
`last_update_time` (set to the current time); in particular `exit_price` is
not mutated. -/
theorem update_position_from_fill_noop (position : StraddlePosition)
    (fill : FillEvent) (now : ℕ)
    (h : position.state ≠ StraddleState.ENTERED ∨
      ¬ exit_fill_matches position fill) :
    update_position_from_fill position fill now =
        { position with last_update_time := now } ∧
      (update_position_from_fill position fill now).exit_price =
        position.exit_price := by
  have hmain : update_position_from_fill position fill now =
      { position with last_update_time := now } := by
    unfold update_position_from_fill
    dsimp only
    rcases h with h | h
    · rw [if_neg h]
    · by_cases hs : position.state = StraddleState.ENTERED
      · have h' : ¬ exit_fill_matches
            { position with last_update_time := now } fill := h
        rw [if_pos hs, if_neg h']
      · rw [if_neg hs]
  exact ⟨hmain, by rw [hmain]⟩

/-- C6 amended witness: the second SELL fill on the `EXITED` position only
refreshes `last_update_time` and leaves `exit_price` at 0.18. -/
theorem update_position_from_fill_noop_witness :
    update_position_from_fill posExited fillSellNo 7 =
        { posExited with last_update_time := 7 } ∧
      (update_position_from_fill posExited fillSellNo 7).exit_price =
        posExited.exit_price :=
  update_position_from_fill_noop posExited fillSellNo 7 (Or.inl (by decide))

/-! ## Claim C10 -/

/-- C10: for an `ENTERED` position, `update_position_from_fill` performs the
`EXITED` transition iff the fill side is SELL and the lowercased
`fill.market_id` contains `"yes"` when `cheap_side` is YES, or `"no"` when it
is NO; otherwise the state remains `ENTERED`. -/
theorem update_fill_exit_transition_iff (position : StraddlePosition)
    (fill : FillEvent) (now : ℕ)
    (h : position.state = StraddleState.ENTERED) :
    ((update_position_from_fill position fill now).state =
        StraddleState.EXITED ↔
      (fill.side = Side.SELL ∧
        ((position.cheap_side = "YES" ∧
            strContains (strLower fill.market_id) "yes") ∨
         (position.cheap_side = "NO" ∧
            strContains (strLower fill.market_id) "no")))) ∧
    (¬ (fill.side = Side.SELL ∧
        ((position.cheap_side = "YES" ∧
            strContains (strLower fill.market_id) "yes") ∨
         (position.cheap_side = "NO" ∧
            strContains (strLower fill.market_id) "no"))) →
      (update_position_from_fill position fill now).state =
        StraddleState.ENTERED) := by
  have hiff : exit_fill_matches position fill ↔
      (fill.side = Side.SELL ∧
        ((position.cheap_side = "YES" ∧
            strContains (strLower fill.market_id) "yes") ∨
         (position.cheap_side = "NO" ∧
            strContains (strLower fill.market_id) "no"))) := Iff.rfl
  constructor
  · rw [← hiff]
    unfold update_position_from_fill
    dsimp only
    rw [if_pos h]
    by_cases hmatch : exit_fill_matches position fill
    · have h' : exit_fill_matches { position with last_update_time := now }
          fill := hmatch
      rw [if_pos h']
      simp [hmatch]
    · have h' : ¬ exit_fill_matches { position with last_update_time := now }
          fill := hmatch
      rw [if_neg h']
      dsimp only
      simp only [h]
      simp [hmatch]
  · intro hnot
    rw [← hiff] at hnot
    unfold update_position_from_fill
    dsimp only
    rw [if_pos h]
    have h' : ¬ exit_fill_matches { position with last_update_time := now }
        fill := hnot
    rw [if_neg h']
    exact h

/-- C10 witness: the SELL fill on `"m1-NO"` (which contains `"no"` once
lowercased) moves the entered NO-cheap position to `EXITED`. -/
theorem update_fill_exit_transition_iff_witness :
    (update_position_from_fill posEntered fillSellNo 4).state =
      StraddleState.EXITED :=
  (update_fill_exit_transition_iff posEntered fillSellNo 4 rfl).1.mpr
    (by decide)

/-! ## Claim C7 -/

theorem dictInsert_snd_mem (k : String) (v : StraddlePosition)
    (d : List (String × StraddlePosition)) :
    v ∈ (dictInsert k v d).map Prod.snd := by
  induction d with
  | nil => simp [dictInsert]
  | cons e rest ih =>
    obtain ⟨k0, v0⟩ := e
    by_cases hk : k0 = k
    · simp [dictInsert, hk]
    · simp only [dictInsert, if_neg hk, List.map_cons, List.mem_cons]
      exact Or.inr ih

theorem dictInsert_entry_spec (k : String) (v : StraddlePosition)
    (d : List (String × StraddlePosition))
    (hnd : (d.map Prod.fst).Nodup) :
    ∀ e ∈ dictInsert k v d, (e.1 ≠ k ∧ e ∈ d) ∨ e = (k, v) := by
  induction d with
  | nil =>
    intro e he
    simp [dictInsert] at he
    exact Or.inr he
  | cons hd rest ih =>
    obtain ⟨k0, v0⟩ := hd
    simp only [List.map_cons, List.nodup_cons] at hnd
    obtain ⟨hk0, hndrest⟩ := hnd
    intro e he
    by_cases hk : k0 = k
    · subst hk
      simp only [dictInsert, if_pos rfl, if_true, List.mem_cons] at he
      rcases he with heq | he
      · exact Or.inr heq
      · left
        refine ⟨fun hek => hk0 ?_, List.mem_cons_of_mem _ he⟩
        rw [← hek]
        exact List.mem_map_of_mem Prod.fst he
    · simp only [dictInsert, if_neg hk, if_false, List.mem_cons] at he
      rcases he with heq | he
      · subst heq
        exact Or.inl ⟨hk, List.mem_cons_self _ _⟩
      · rcases ih hndrest e he with ⟨hne, hmem⟩ | heq
        · exact Or.inl ⟨hne, List.mem_cons_of_mem _ hmem⟩
        · exact Or.inr heq

/-- C7: saving a straddle position and reloading yields the position itself
when its state is not `RESOLVED`, and yields no position with its `market_id`
when it is `RESOLVED` (for any well-formed store). -/
theorem save_load_round_trip (p : InMemoryPersistence)
    (position : StraddlePosition) (hwf : StoreWF p) :
    (position.state ≠ StraddleState.RESOLVED →
      position ∈ load_straddle_positions (save_straddle_position p position)) ∧
    (position.state = StraddleState.RESOLVED →
      ∀ q ∈ load_straddle_positions (save_straddle_position p position),
        q.market_id ≠ position.market_id) := by
  obtain ⟨hkey, hnd⟩ := hwf
  constructor
  · intro hst
    unfold load_straddle_positions save_straddle_position
    refine List.mem_filter.mpr ⟨dictInsert_snd_mem _ _ _, ?_⟩
    exact decide_eq_true hst
  · intro hst q hq
    unfold load_straddle_positions save_straddle_position at hq
    rw [List.mem_filter] at hq
    obtain ⟨hmem, hpred⟩ := hq
    rw [List.mem_map] at hmem
    obtain ⟨e, he, rfl⟩ := hmem
    rcases dictInsert_entry_spec position.market_id position
        p.straddle_positions hnd e he with ⟨hne, hmem'⟩ | heq
    · rw [← hkey e hmem']
      exact hne
    · rw [heq]
      intro _
      exact (of_decide_eq_true hpred) (heq ▸ hst)

/-- C7 witness: saving the non-`RESOLVED` entered position into the empty
store and reloading returns it. -/
theorem save_load_round_trip_witness :
    posEntered ∈
      load_straddle_positions
        (save_straddle_position { straddle_positions := [] } posEntered) :=
  (save_load_round_trip { straddle_positions := [] } posEntered
      ⟨by simp, List.nodup_nil⟩).1 (by decide)

/-! ## Claim C8 -/

/-- C8: when every one of the three submission attempts fails with a transport
error, `submit_order` returns (does not raise) a `LiveOrder` with
`status = "failed"` and an empty `order_hash`; the `RuntimeError` branch is
not taken. -/
theorem submit_order_transport_failure (net : ℕ → Option (Option OrderData))
    (payload : OrderPayload) (now : ℕ) (h : ∀ i, i < 3 → net i = none) :
    submit_order net payload now =
      Except.ok { order_hash := ""
                  intent := intent_from_payload payload
                  created_at := now
                  status := "failed" } := by
  have h0 := h 0 (by norm_num)
  have h1 := h 1 (by norm_num)
  have h2 := h 2 (by norm_num)
  have hr : runAttempts net (List.range 3) = Except.error () := by
    rw [show List.range 3 = [0, 1, 2] by rfl]
    simp [runAttempts, h0, h1, h2]
  unfold submit_order
  rw [hr]

/-- A payload dict with every key absent. -/
def payloadEmpty : OrderPayload :=
  { market := none, side := none, price := none, size := none,
    expiration := none, clientOrderId := none, metadata := none }

/-- C8 witness: with a network that always raises, `submit_order` returns the
synthesized failed order. -/
theorem submit_order_transport_failure_witness :
    submit_order (fun _ => none) payloadEmpty 0 =
      Except.ok { order_hash := ""
                  intent := intent_from_payload payloadEmpty
                  created_at := 0
                  status := "failed" } :=
  submit_order_transport_failure (fun _ => none) payloadEmpty 0
    (fun _ _ => rfl)

end Polymarket
